import Mathlib

/-!
# Trail alignment validator — shallow embedding

Shallow embedding of the core logic of the `trail` program (file
`trail.go`, in its fuller variant with clothoid handling, table export and
mean-Vp reporting).  Numeric conventions:

* Go `int` fields (`Id`, `Vp`) are embedded as `ℤ`; Go `float64` fields
  (`Length`, `Radius`, length bounds) as `ℚ`, reading the program's float
  arithmetic as exact real arithmetic (all constants involved are decimal
  literals, so every quantity the program computes other than the square
  roots below is rational).
* The Go code stores `AMin = math.Sqrt(|radius|*lClothMin)`,
  `AMax = math.Sqrt(|radius|*lClothMin*2)`, and copies them into a
  Clothoid's `MinLength`/`MaxLength`.  Those four quantities are the only
  irrational values in the program, and they are only ever (a) compared
  against rational lengths and (b) printed.  We embed each of them by its
  (rational) square, in fields suffixed `Sq`, and perform the comparisons
  through `ltSqrt`/`gtSqrt`, which decide `x < √s` and `x > √s` exactly
  (lemmas `ltSqrt_iff_real`/`gtSqrt_iff_real` below tie the encoding to
  `Real.sqrt`).
* `log.Fatalf` aborts are embedded as `none` of an `Option` result.
-/

namespace Trail

/-- Element kinds, from the Go `ElementType` enumeration
(`Straight`/`Clothoid`/`Radius`). -/
inductive ElementType where
  | Straight
  | Clothoid
  | Radius
deriving DecidableEq

/-- Error flag bits, from the Go `Flag` constants `EVpDiff = 1 << 0`. -/
def EVpDiff : ℕ := 1

/-- `EMinLength = 1 << 1`. -/
def EMinLength : ℕ := 2

/-- `EMaxLength = 1 << 2`. -/
def EMaxLength : ℕ := 4

/-- Go constant `MaxVp`. -/
def MaxVp : ℤ := 100

/-- Go constant `MaxStraightVp`. -/
def MaxStraightVp : ℤ := 100

/-- One alignment element, from the Go `Element` struct.  The Go field
`Type` is called `type` here (`Type` is reserved in Lean).  The Go float
fields `AMin`, `AMax` are represented by their squares `AMinSq`, `AMaxSq`;
`MinLength` holds the exact Go value for Radius/Straight elements, while a
Clothoid's Go `MinLength`/`MaxLength` (copies of a neighbour's
`AMin`/`AMax`) are represented by their squares `MinLengthSq`/`MaxLengthSq`
(both 0, like the Go zero values, for other kinds — note `√0 = 0`). -/
structure Element where
  Id : ℤ
  type : ElementType
  Length : ℚ
  Radius : ℚ
  Vp : ℤ
  MinLength : ℚ
  MinLengthSq : ℚ
  MaxLengthSq : ℚ
  AMinSq : ℚ
  AMaxSq : ℚ
  Errors : ℕ
deriving DecidableEq

/-- Decides `x < √s` for `0 ≤ s` (used to embed the Go comparison
`e.Length < e.MinLength` when `MinLength` is the square root stored for a
Clothoid): `x < √s ↔ x < 0 ∨ x² < s`. -/
def ltSqrt (x s : ℚ) : Bool :=
  decide (x < 0) || decide (x ^ 2 < s)

/-- Decides `√s < x` for `0 ≤ s` (used to embed the Go comparison
`e.Length > e.MaxLength`): `√s < x ↔ 0 ≤ x ∧ s < x²`. -/
def gtSqrt (x s : ℚ) : Bool :=
  decide (0 ≤ x) && decide (s < x ^ 2)

/-- Go `math.Abs` on the rational embedding, written with an explicit sign
test (rather than the lattice `|·|`) so that concrete instances evaluate
by `decide`; `qabs_eq_abs` below identifies it with `|·|`. -/
def qabs (x : ℚ) : ℚ := if x < 0 then -x else x

/-- The Go map `straightVps`: per speed bucket, the ordered straight-length
breakpoints.  A map lookup miss is `none`. -/
def straightVps (vp : ℤ) : Option (List ℚ) :=
  if vp = 40 then some [30, 100, 180, 270, 380, 500]
  else if vp = 50 then some [35, 120, 210, 320, 440]
  else if vp = 60 then some [40, 140, 250, 370]
  else if vp = 70 then some [50, 160, 280]
  else if vp = 80 then some [60, 180]
  else if vp = 90 then some [70]
  else none

/-- The Go map `clothoidMinLengths`: minimum clothoid parameter length per
speed value.  A map lookup miss is `none`. -/
def clothoidMinLengths (vp : ℤ) : Option ℚ :=
  if vp = 40 then some 15
  else if vp = 45 then some 20
  else if vp = 50 then some 20
  else if vp = 55 then some 30
  else if vp = 60 then some 30
  else if vp = 65 then some 39
  else if vp = 70 then some 39
  else if vp = 75 then some 44
  else if vp = 80 then some 44
  else if vp = 85 then some 50
  else if vp = 90 then some 50
  else if vp = 95 then some 56
  else if vp = 100 then some 56
  else if vp = 110 then some 61
  else if vp = 120 then some 67
  else if vp = 130 then some 72
  else none

/-- Go `determineRadiusVp`: the radius-to-speed breakpoint chain on
`math.Abs(radius)`. -/
def determineRadiusVp (radius : ℚ) : ℤ :=
  let radius := qabs radius
  if radius ≤ 30 then 40
  else if radius ≤ 40 then 45
  else if radius ≤ 50 then 50
  else if radius ≤ 60 then 55
  else if radius ≤ 80 then 60
  else if radius ≤ 100 then 65
  else if radius ≤ 130 then 70
  else if radius ≤ 160 then 75
  else if radius ≤ 200 then 80
  else if radius ≤ 250 then 85
  else if radius ≤ 300 then 90
  else if radius ≤ 350 then 95
  else if radius ≤ 430 then 100
  else if radius ≤ 530 then 110
  else if radius ≤ 670 then 120
  else 130

/-- The `for i, minLength := range vps` loop body of Go
`determineStraightVp`: first breakpoint with `length <= minLength` wins and
yields `vp + 10*i + vpAddition`; `none` means the loop fell through
(`found` stayed `false`). -/
def straightVpLoop (length : ℚ) (vpAddition vp : ℤ) : ℕ → List ℚ → Option ℤ
  | _, [] => none
  | i, minLength :: rest =>
    if length ≤ minLength then some (vp + 10 * (i : ℤ) + vpAddition)
    else straightVpLoop length vpAddition vp (i + 1) rest

/-- Go `determineStraightVp`.  `none` embeds the
`log.Fatalf("vp not found")` abort on a `straightVps` lookup miss; a
fallen-through breakpoint scan yields `MaxStraightVp`.  (`Int.tmod` is
Go's truncated `%`.) -/
def determineStraightVp (radiusVp : ℤ) (length : ℚ) : Option ℤ :=
  let vpAddition := Int.tmod radiusVp 10
  let vp := radiusVp - vpAddition
  match straightVps vp with
  | none => none
  | some vps =>
    match straightVpLoop length vpAddition vp 0 vps with
    | some v => some v
    | none => some MaxStraightVp

/-- Go `determineMinClothoidLength`; `none` embeds the
`log.Fatalf("no clothoid length found")` abort. -/
def determineMinClothoidLength (radiusVp : ℤ) : Option ℚ :=
  clothoidMinLengths radiusVp

/-- Go `drivingSecondLength`: `float64(vp) / 3.6 * float64(seconds)`. -/
def drivingSecondLength (vp seconds : ℤ) : ℚ :=
  (vp : ℚ) / 3.6 * (seconds : ℚ)

/-- The loop of Go `getDirectedNextRadius`:
`for i := pos+increment; i > 0 && i < len(elements); i += increment`
with body `distance++; if elements[i].Type == Radius { result = elements[i]; break }`.
`fuel` bounds the iteration count; the callers pass `increment = ±1`, for
which `elements.length + 1` fuel is never exhausted (each step moves `i`
strictly towards leaving the interval `(0, length)`). -/
def directedLoop (elements : List Element) (increment : ℤ) :
    ℕ → ℤ → ℕ → Option Element × ℕ
  | 0, _, distance => (none, distance)
  | fuel + 1, i, distance =>
    if h : 0 < i ∧ i < (elements.length : ℤ) then
      let distance := distance + 1
      let e := elements.get ⟨i.toNat, by omega⟩
      if e.type = ElementType.Radius then (some e, distance)
      else directedLoop elements increment fuel (i + increment) distance
    else (none, distance)

/-- Go `getDirectedNextRadius`: returns the first Radius element in
direction `increment` together with its 1-based step distance; `(none, _)`
when the scan leaves the index range without a hit. -/
def getDirectedNextRadius (elements : List Element) (pos increment : ℤ) :
    Option Element × ℕ :=
  directedLoop elements increment (elements.length + 1) (pos + increment) 0

/-- Go `getNextRadius` (distance discarded). -/
def getNextRadius (elements : List Element) (pos : ℤ) : Option Element :=
  (getDirectedNextRadius elements pos 1).1

/-- Go `getPreviousRadius` (distance discarded). -/
def getPreviousRadius (elements : List Element) (pos : ℤ) : Option Element :=
  (getDirectedNextRadius elements pos (-1)).1

/-- Go `getNearestRadius`.  `none` embeds the
`log.Fatalf("could not find nearest radius")` abort when both directed
scans miss; with two hits the strictly smaller distance wins and the next
(+1) hit wins ties (`previousDistance < nextDistance`). -/
def getNearestRadius (elements : List Element) (pos : ℤ) : Option Element :=
  let p := getDirectedNextRadius elements pos (-1)
  let n := getDirectedNextRadius elements pos 1
  match p.1, n.1 with
  | none, none => none
  | some previous, none => some previous
  | none, some next => some next
  | some previous, some next =>
    if p.2 < n.2 then some previous else some next

/-- First `main` stage (`// determine radius vp and length of clothoids`):
for a Radius element, `Vp = min(MaxVp, determineRadiusVp(Radius))`, then
`AMin = √(|Radius| * lClothMin)` and `AMax = √(|Radius| * lClothMin * 2)`
(stored as squares here); other elements pass through unchanged.  `none`
embeds the fatal abort inside `determineMinClothoidLength`. -/
def processRadius (e : Element) : Option Element :=
  if e.type = ElementType.Radius then
    let vp := min MaxVp (determineRadiusVp e.Radius)
    match determineMinClothoidLength vp with
    | none => none
    | some lClothMin =>
      some { e with
        Vp := vp
        AMinSq := qabs e.Radius * lClothMin
        AMaxSq := qabs e.Radius * lClothMin * 2 }
  else some e

/-- The `radiusVp` accumulation of the second `main` stage
(`// determine straigth vp`): start at 0, `max` in the previous and next
Radius hit's `Vp` when present. -/
def straightRadiusVp (es : List Element) (i : ℕ) : ℤ :=
  let radiusVp : ℤ := 0
  let radiusVp :=
    match getPreviousRadius es i with
    | some r => max r.Vp radiusVp
    | none => radiusVp
  match getNextRadius es i with
  | some r => max r.Vp radiusVp
  | none => radiusVp

/-- Per-element body of the second `main` stage: a Straight element gets
`Vp = determineStraightVp(radiusVp, Length)` (`none` embeds that
function's fatal abort); others pass through.  The scans read the stage's
input list `es`: the Go loop mutates the array in place, but this pass
rewrites only Straight elements' `Vp` while the scans consult only `Type`
fields and Radius-typed elements, which the pass leaves untouched. -/
def straightVpAt (es : List Element) (i : ℕ) (e : Element) : Option Element :=
  if e.type = ElementType.Straight then
    (determineStraightVp (straightRadiusVp es i) e.Length).map
      (fun vp => { e with Vp := vp })
  else some e

/-- Per-element body of the third `main` stage
(`// determine clothoid vp`): a Clothoid inherits the nearest Radius
element's `Vp`; `none` embeds the fatal abort inside `getNearestRadius`.
As above, the scans read the stage's input list: the pass rewrites only
Clothoid elements' `Vp`, which no scan consults. -/
def clothoidVpAt (es : List Element) (i : ℕ) (e : Element) : Option Element :=
  if e.type = ElementType.Clothoid then
    match getNearestRadius es i with
    | none => none
    | some radius => some { e with Vp := radius.Vp }
  else some e

/-- Per-element body of the fourth `main` stage
(`// determine minimum length of elements`).  For a Straight element the
1-second minimum escalates to 5 seconds when the previous and next Radius
hits exist and have strictly same-sign radii; a Clothoid copies the
nearest Radius element's `AMin`/`AMax` into `MinLength`/`MaxLength`
(squares here).  The Go `default: log.Fatalf` branch is unreachable: the
Lean match over `ElementType` is total. -/
def minLengthAt (es : List Element) (i : ℕ) (e : Element) : Option Element :=
  match e.type with
  | ElementType.Radius =>
    some { e with MinLength := drivingSecondLength e.Vp 1 }
  | ElementType.Straight =>
    let e := { e with MinLength := drivingSecondLength e.Vp 1 }
    match getPreviousRadius es i, getNextRadius es i with
    | some p, some n =>
      if p.Radius < 0 ∧ n.Radius < 0 then
        some { e with MinLength := drivingSecondLength e.Vp 5 }
      else if p.Radius > 0 ∧ n.Radius > 0 then
        some { e with MinLength := drivingSecondLength e.Vp 5 }
      else some e
    | _, _ => some e
  | ElementType.Clothoid =>
    match getNearestRadius es i with
    | none => none
    | some radius =>
      some { e with MinLengthSq := radius.AMinSq, MaxLengthSq := radius.AMaxSq }

/-- The pair condition of the fifth `main` stage (`// check vp differences`):
`abs(e.Vp - n.Vp) >= 20` when either `Vp` is 100, else `> 20`. -/
def vpDiffInvalid (e n : Element) : Bool :=
  if e.Vp = 100 ∨ n.Vp = 100 then decide (20 ≤ |e.Vp - n.Vp|)
  else decide (20 < |e.Vp - n.Vp|)

/-- The pair loop of the fifth `main` stage, carrying the current head:
for each adjacent pair, on violation `EVpDiff` is OR-ed into both elements
(the updated second element flows into the next pair, matching the Go
in-place `elements[i] / elements[i+1]` updates). -/
def checkVpDiffsAux (e : Element) : List Element → List Element
  | [] => [e]
  | n :: rest =>
    if vpDiffInvalid e n then
      { e with Errors := e.Errors ||| EVpDiff } ::
        checkVpDiffsAux { n with Errors := n.Errors ||| EVpDiff } rest
    else e :: checkVpDiffsAux n rest

/-- The fifth `main` stage: `for i, e := range elements[:len(elements)-1]`
pairing each element with its successor.  (On an empty slice the Go
expression `elements[:len(elements)-1]` would panic; the stage is only
reached with at least one data row.) -/
def checkVpDiffs : List Element → List Element
  | [] => []
  | e :: rest => checkVpDiffsAux e rest

/-- The `e.Length < e.MinLength` comparison of the sixth `main` stage,
through the square encoding for Clothoids (whose Go `MinLength` is the
irrational `√MinLengthSq`). -/
def belowMinLength (e : Element) : Bool :=
  match e.type with
  | ElementType.Clothoid => ltSqrt e.Length e.MinLengthSq
  | _ => decide (e.Length < e.MinLength)

/-- The `e.MaxLength != 0 && e.Length > e.MaxLength` comparison of the
sixth `main` stage.  Go's `MaxLength` is only ever assigned on Clothoids
(it stays 0 elsewhere) and equals `√MaxLengthSq`, which is 0 iff
`MaxLengthSq` is 0. -/
def aboveMaxLength (e : Element) : Bool :=
  decide (e.MaxLengthSq ≠ 0) && gtSqrt e.Length e.MaxLengthSq

/-- The sixth `main` stage (`// check lengths`): OR `EMinLength` when the
length is below the minimum, `EMaxLength` when a maximum is set and
exceeded. -/
def checkLengths (e : Element) : Element :=
  let e :=
    if belowMinLength e then { e with Errors := e.Errors ||| EMinLength } else e
  if aboveMaxLength e then { e with Errors := e.Errors ||| EMaxLength } else e

/-- Go `stringifyErrors`: builds the `Errors` table cell by appending
`"VpDiff"` and `"MinLength"` for the corresponding set bits and joining
with `", "`.  (No branch inspects `EMaxLength`.) -/
def stringifyErrors (e : ℕ) : String :=
  let errorStrings : List String := []
  let errorStrings :=
    if e &&& EVpDiff ≠ 0 then errorStrings ++ ["VpDiff"] else errorStrings
  let errorStrings :=
    if e &&& EMinLength ≠ 0 then errorStrings ++ ["MinLength"] else errorStrings
  String.intercalate ", " errorStrings

/-- The `totalLength` accumulator of the final `main` block
(`// calculate mean vp`). -/
def totalLength (es : List Element) : ℚ :=
  es.foldl (fun acc e => acc + e.Length) 0

/-- The `vpProduct` accumulator of the final `main` block. -/
def vpProduct (es : List Element) : ℚ :=
  es.foldl (fun acc e => acc + e.Length * (e.Vp : ℚ)) 0

/-- The final `meanVp := vpProduct / totalLength` of `main`.  The Go code
divides unconditionally; when `totalLength = 0` the float division yields
a non-finite value (NaN, since `vpProduct` is then also 0 for the
non-negative lengths the tool processes), which `none` embeds — there is
no zero-length guard in the source. -/
def meanVp (es : List Element) : Option ℚ :=
  if totalLength es = 0 then none
  else some (vpProduct es / totalLength es)

/-- The whole derivation/validation pipeline of `main` after parsing, in
stage order; `none` embeds any fatal abort.  Per-element stages scan their
own input list (see the stage comments for why this matches the Go
in-place loops). -/
def pipeline (es : List Element) : Option (List Element) := do
  let es1 ← es.mapM processRadius
  let es2 ← es1.enum.mapM (fun p => straightVpAt es1 p.1 p.2)
  let es3 ← es2.enum.mapM (fun p => clothoidVpAt es2 p.1 p.2)
  let es4 ← es3.enum.mapM (fun p => minLengthAt es3 p.1 p.2)
  let es5 := checkVpDiffs es4
  some (es5.map checkLengths)

/-! ### Helper lemmas: flag bits and the square-root encoding -/

lemma qabs_eq_abs (x : ℚ) : qabs x = |x| := by
  unfold qabs
  split_ifs with h
  · exact (abs_of_neg h).symm
  · exact (abs_of_nonneg (not_lt.mp h)).symm

lemma and_two_pow_ne_zero_iff (a k : ℕ) : a &&& 2 ^ k ≠ 0 ↔ a.testBit k = true := by
  rw [Nat.and_two_pow]
  rcases h : a.testBit k <;> simp

lemma testBit_or_self (a k : ℕ) : (a ||| 2 ^ k).testBit k = true := by
  rw [Nat.testBit_lor, Nat.testBit_two_pow_self]
  simp

lemma testBit_or_of_testBit (a x k : ℕ) (h : a.testBit k = true) :
    (a ||| x).testBit k = true := by
  rw [Nat.testBit_lor, h]
  simp

/-- The encoding `ltSqrt` decides exactly the real comparison
`x < √s` performed by the Go code on the stored square roots. -/
lemma ltSqrt_iff_real (x s : ℚ) :
    ltSqrt x s = true ↔ (x : ℝ) < Real.sqrt (s : ℝ) := by
  simp only [ltSqrt, Bool.or_eq_true, decide_eq_true_eq]
  rcases lt_or_le x 0 with hx | hx
  · constructor
    · intro _
      have hx' : (x : ℝ) < 0 := by exact_mod_cast hx
      exact hx'.trans_le (Real.sqrt_nonneg _)
    · intro _
      exact Or.inl hx
  · have hx' : (0 : ℝ) ≤ (x : ℝ) := by exact_mod_cast hx
    rw [Real.lt_sqrt hx']
    constructor
    · rintro (h | h)
      · exact absurd h (not_lt.mpr hx)
      · exact_mod_cast h
    · intro h
      exact Or.inr (by exact_mod_cast h)

/-- The encoding `gtSqrt` decides exactly the real comparison
`√s < x` performed by the Go code on the stored square roots. -/
lemma gtSqrt_iff_real (x s : ℚ) (hs : 0 ≤ s) :
    gtSqrt x s = true ↔ Real.sqrt (s : ℝ) < (x : ℝ) := by
  simp only [gtSqrt, Bool.and_eq_true, decide_eq_true_eq]
  constructor
  · rintro ⟨hx, hsx⟩
    rcases eq_or_lt_of_le hx with h0 | h0
    · exfalso
      rw [← h0] at hsx
      simp at hsx
      exact absurd hsx (not_lt.mpr hs)
    · have h0' : (0 : ℝ) < (x : ℝ) := by exact_mod_cast h0
      rw [Real.sqrt_lt' h0']
      exact_mod_cast hsx
  · intro h
    have h0' : (0 : ℝ) < (x : ℝ) := lt_of_le_of_lt (Real.sqrt_nonneg _) h
    rw [Real.sqrt_lt' h0'] at h
    exact ⟨by exact_mod_cast h0'.le, by exact_mod_cast h⟩

/-! ### Helper lemmas: the straight-Vp lookup -/

lemma straightVps_eq_none_iff (vp : ℤ) :
    straightVps vp = none ↔
      ¬ (vp = 40 ∨ vp = 50 ∨ vp = 60 ∨ vp = 70 ∨ vp = 80 ∨ vp = 90) := by
  unfold straightVps
  split_ifs <;> simp_all

lemma determineStraightVp_eq_none_iff (radiusVp : ℤ) (length : ℚ) :
    determineStraightVp radiusVp length = none ↔
      straightVps (radiusVp - Int.tmod radiusVp 10) = none := by
  unfold determineStraightVp
  cases h : straightVps (radiusVp - Int.tmod radiusVp 10) with
  | none => simp [h]
  | some vps =>
    cases h2 : straightVpLoop length (Int.tmod radiusVp 10)
        (radiusVp - Int.tmod radiusVp 10) 0 vps <;> simp [h, h2]

/-- An input-state element, as `readElement` builds it: every
engine-derived field at its Go zero value. -/
def inputElement (id : ℤ) (t : ElementType) (length radius : ℚ) : Element :=
  { Id := id, type := t, Length := length, Radius := radius, Vp := 0,
    MinLength := 0, MinLengthSq := 0, MaxLengthSq := 0, AMinSq := 0,
    AMaxSq := 0, Errors := 0 }

/-- Claim C1 is violated by the code: the directed-scan loop condition is
`i > 0 && i < len(elements)`, so index 0 is never examined and a Radius
element at the first position is NOT found by a backward scan, contrary to
the claim's in-bounds scanning (the intended bound is `i >= 0`).  With
`[Radius, Straight]`, the backward scan from position 1 returns none
(first conjunct) although the element at index 0 has kind Radius (second
conjunct), and `getNearestRadius` consequently hits its fatal branch
(third conjunct) although a Radius element exists.  A backward scan whose
hit lies at an index ≥ 1 behaves as claimed (fourth conjunct: in
`[Straight, Radius, Straight]`, scanning backwards from position 2 finds
the Radius at step distance 1). -/
theorem C1_backward_scan_misses_index_zero :
    (getDirectedNextRadius
        [inputElement 1 ElementType.Radius 10 (-100),
         inputElement 2 ElementType.Straight 5 0] 1 (-1)).1 = none
    ∧ ([inputElement 1 ElementType.Radius 10 (-100),
         inputElement 2 ElementType.Straight 5 0].get ⟨0, by decide⟩).type
        = ElementType.Radius
    ∧ getNearestRadius
        [inputElement 1 ElementType.Radius 10 (-100),
         inputElement 2 ElementType.Straight 5 0] 1 = none
    ∧ getDirectedNextRadius
        [inputElement 1 ElementType.Straight 5 0,
         inputElement 2 ElementType.Radius 10 (-100),
         inputElement 3 ElementType.Straight 5 0] 2 (-1)
        = (some (inputElement 2 ElementType.Radius 10 (-100)), 1) := by
  refine ⟨by decide, by decide, by decide, by decide⟩

/-- Claim C6: `determineStraightVp` aborts the run (embedded as `none`)
exactly when the speed bucket `radiusVp - radiusVp % 10` is none of
40, 50, 60, 70, 80, 90 (first conjunct); in particular a flanking radius
Vp of 100 (bucket 100) and a missing flank pair (radiusVp 0, bucket 0)
abort (second and third conjuncts), and a Straight element whose computed
`straightRadiusVp` is 100 or 0 makes the straight-Vp stage abort instead
of assigning a Vp (fourth conjunct). -/
theorem C6_fatal_on_unpopulated_bucket :
    (∀ (radiusVp : ℤ) (length : ℚ),
      determineStraightVp radiusVp length = none ↔
        ¬ (radiusVp - Int.tmod radiusVp 10 = 40 ∨
           radiusVp - Int.tmod radiusVp 10 = 50 ∨
           radiusVp - Int.tmod radiusVp 10 = 60 ∨
           radiusVp - Int.tmod radiusVp 10 = 70 ∨
           radiusVp - Int.tmod radiusVp 10 = 80 ∨
           radiusVp - Int.tmod radiusVp 10 = 90))
    ∧ (∀ length : ℚ, determineStraightVp 100 length = none)
    ∧ (∀ length : ℚ, determineStraightVp 0 length = none)
    ∧ (∀ (es : List Element) (i : ℕ) (e : Element),
        e.type = ElementType.Straight →
        (straightRadiusVp es i = 100 ∨ straightRadiusVp es i = 0) →
        straightVpAt es i e = none) := by
  have hmain : ∀ (radiusVp : ℤ) (length : ℚ),
      determineStraightVp radiusVp length = none ↔
        ¬ (radiusVp - Int.tmod radiusVp 10 = 40 ∨
           radiusVp - Int.tmod radiusVp 10 = 50 ∨
           radiusVp - Int.tmod radiusVp 10 = 60 ∨
           radiusVp - Int.tmod radiusVp 10 = 70 ∨
           radiusVp - Int.tmod radiusVp 10 = 80 ∨
           radiusVp - Int.tmod radiusVp 10 = 90) := by
    intro radiusVp length
    rw [determineStraightVp_eq_none_iff, straightVps_eq_none_iff]
  refine ⟨hmain, ?_, ?_, ?_⟩
  · intro length
    rw [hmain]
    decide
  · intro length
    rw [hmain]
    decide
  · intro es i e ht hvp
    unfold straightVpAt
    rw [ht]
    have : determineStraightVp (straightRadiusVp es i) e.Length = none := by
      rcases hvp with h | h <;> rw [h, hmain] <;> decide
    simp [this]

/-- Witness for C6 at a concrete alignment: `[Straight, Radius -400]`.
The radius gets Vp `min(100, 110) = 100`, the straight's flanking
`radiusVp` is therefore 100, and the straight-Vp stage aborts. -/
theorem C6_witness :
    straightVpAt
      [inputElement 1 ElementType.Straight 20 0,
       { inputElement 2 ElementType.Radius 30 (-400) with Vp := 100 }] 0
      (inputElement 1 ElementType.Straight 20 0) = none := by
  have h := (C6_fatal_on_unpopulated_bucket).2.2.2
    [inputElement 1 ElementType.Straight 20 0,
     { inputElement 2 ElementType.Radius 30 (-400) with Vp := 100 }] 0
    (inputElement 1 ElementType.Straight 20 0) rfl (Or.inl (by decide))
  exact h

/-- If `k` is the first list position whose breakpoint is `≥ length`, the
breakpoint loop stops there and yields `vp + 10*(i+k) + add` (where `i` is
the index offset already consumed). -/
lemma straightVpLoop_eq_some (length : ℚ) (add vp : ℤ) :
    ∀ (l : List ℚ) (i k : ℕ) (hk : k < l.length),
      length ≤ l.get ⟨k, hk⟩ →
      (∀ j (hj : j < l.length), j < k → l.get ⟨j, hj⟩ < length) →
      straightVpLoop length add vp i l = some (vp + 10 * ((i + k : ℕ) : ℤ) + add)
  | [], _, k, hk, _, _ => absurd hk (by simp)
  | bp :: rest, i, 0, _, hle, _ => by
    simp only [straightVpLoop]
    rw [if_pos]
    · simp
    · simpa using hle
  | bp :: rest, i, k + 1, hk, hle, hlt => by
    have hbp : bp < length := by
      have := hlt 0 (by simp) (Nat.succ_pos k)
      simpa using this
    simp only [straightVpLoop]
    rw [if_neg (not_le.mpr hbp)]
    have ih := straightVpLoop_eq_some length add vp rest (i + 1) k
      (by simpa using Nat.lt_of_succ_lt_succ hk)
      (by simpa using hle)
      (by
        intro j hj hjk
        have := hlt (j + 1) (by simpa using Nat.succ_lt_succ hj) (Nat.succ_lt_succ hjk)
        simpa using this)
    rw [ih]
    congr 1
    omega

/-- If every breakpoint is `< length`, the loop falls through. -/
lemma straightVpLoop_eq_none (length : ℚ) (add vp : ℤ) :
    ∀ (l : List ℚ) (i : ℕ),
      (∀ j (hj : j < l.length), l.get ⟨j, hj⟩ < length) →
      straightVpLoop length add vp i l = none
  | [], _, _ => rfl
  | bp :: rest, i, hlt => by
    have hbp : bp < length := by
      have := hlt 0 (by simp)
      simpa using this
    simp only [straightVpLoop]
    rw [if_neg (not_le.mpr hbp)]
    exact straightVpLoop_eq_none length add vp rest (i + 1) (by
      intro j hj
      have := hlt (j + 1) (by simpa using Nat.succ_lt_succ hj)
      simpa using this)

/-- Claim C2: a Straight element's Vp.  With `radiusVp` the max of the
flanking Radius hits' Vp (0 for a missing flank — this is
`straightRadiusVp`), `bucket = radiusVp - radiusVp % 10` and
`addition = radiusVp % 10`: when `k` is the list index of the first
breakpoint `≥ length` in bucket's breakpoint list the element's Vp becomes
`bucket + 10*k + addition` (first conjunct), and when the length exceeds
every breakpoint it becomes `MaxStraightVp = 100` (second conjunct). -/
theorem C2_straight_vp_formula (es : List Element) (i : ℕ) (e : Element)
    (bps : List ℚ) (bucket addition : ℤ)
    (ht : e.type = ElementType.Straight)
    (hadd : addition = Int.tmod (straightRadiusVp es i) 10)
    (hbucket : bucket = straightRadiusVp es i - addition)
    (hb : straightVps bucket = some bps) :
    (∀ k (hk : k < bps.length),
      e.Length ≤ bps.get ⟨k, hk⟩ →
      (∀ j (hj : j < bps.length), j < k → bps.get ⟨j, hj⟩ < e.Length) →
      straightVpAt es i e = some { e with Vp := bucket + 10 * (k : ℤ) + addition })
    ∧ ((∀ j (hj : j < bps.length), bps.get ⟨j, hj⟩ < e.Length) →
      straightVpAt es i e = some { e with Vp := 100 }) := by
  subst hadd
  subst hbucket
  constructor
  · intro k hk hle hlt
    have hloop := straightVpLoop_eq_some e.Length (Int.tmod (straightRadiusVp es i) 10)
      (straightRadiusVp es i - Int.tmod (straightRadiusVp es i) 10) bps 0 k hk hle hlt
    simp [straightVpAt, determineStraightVp, ht, hb, hloop]
  · intro hlt
    have hloop := straightVpLoop_eq_none e.Length (Int.tmod (straightRadiusVp es i) 10)
      (straightRadiusVp es i - Int.tmod (straightRadiusVp es i) 10) bps 0 hlt
    simp [straightVpAt, determineStraightVp, ht, hb, hloop, MaxStraightVp]

/-- Witness for C2 at the spec's example: a Straight flanked by a Radius
with Vp 45 (bucket 40, addition 5, breakpoints [30,100,180,270,380,500]).
Length 95 hits index 1 (100 ≥ 95) giving Vp `40 + 10*1 + 5 = 55`; length
999 exceeds every breakpoint giving Vp 100. -/
theorem C2_witness :
    straightVpAt
      [inputElement 1 ElementType.Straight 95 0,
       { inputElement 2 ElementType.Radius 12 (-35) with Vp := 45 }] 0
      (inputElement 1 ElementType.Straight 95 0)
      = some { inputElement 1 ElementType.Straight 95 0 with Vp := 55 }
    ∧ straightVpAt
      [inputElement 1 ElementType.Straight 999 0,
       { inputElement 2 ElementType.Radius 12 (-35) with Vp := 45 }] 0
      (inputElement 1 ElementType.Straight 999 0)
      = some { inputElement 1 ElementType.Straight 999 0 with Vp := 100 } := by
  constructor
  · have h := (C2_straight_vp_formula
      [inputElement 1 ElementType.Straight 95 0,
       { inputElement 2 ElementType.Radius 12 (-35) with Vp := 45 }] 0
      (inputElement 1 ElementType.Straight 95 0)
      [30, 100, 180, 270, 380, 500] 40 5 rfl (by decide) (by decide) (by decide)).1
      1 (by decide) (by decide) (by decide)
    exact h.trans (by decide)
  · have h := (C2_straight_vp_formula
      [inputElement 1 ElementType.Straight 999 0,
       { inputElement 2 ElementType.Radius 12 (-35) with Vp := 45 }] 0
      (inputElement 1 ElementType.Straight 999 0)
      [30, 100, 180, 270, 380, 500] 40 5 rfl (by decide) (by decide) (by decide)).2
      (by decide)
    exact h

/-- Claim C3: a Radius element's stored Vp is
`min(MaxVp, determineRadiusVp(radius))`, and the clothoid minimum-length
lookup keys on that already-capped value.  Hence every radius with
`|radius| > 430` (uncapped table speed 110/120/130) keys the lookup at
100, getting the bucket-100 entry 56 and the clothoid bounds
`AMin = √(|radius|·56)`, `AMax = √(|radius|·56·2)` (stored as the squares
`AMinSq`/`AMaxSq` here), never the 110/120/130 entries 61/67/72. -/
theorem C3_capped_vp_keys_clothoid_lookup (e : Element)
    (ht : e.type = ElementType.Radius) (hr : 430 < qabs e.Radius) :
    min MaxVp (determineRadiusVp e.Radius) = 100
    ∧ determineMinClothoidLength (min MaxVp (determineRadiusVp e.Radius)) = some 56
    ∧ processRadius e
        = some { e with
            Vp := 100, AMinSq := qabs e.Radius * 56,
            AMaxSq := qabs e.Radius * 56 * 2 } := by
  have h100 : min MaxVp (determineRadiusVp e.Radius) = 100 := by
    dsimp only [determineRadiusVp]
    rw [if_neg (by linarith : ¬ qabs e.Radius ≤ 30),
      if_neg (by linarith : ¬ qabs e.Radius ≤ 40),
      if_neg (by linarith : ¬ qabs e.Radius ≤ 50),
      if_neg (by linarith : ¬ qabs e.Radius ≤ 60),
      if_neg (by linarith : ¬ qabs e.Radius ≤ 80),
      if_neg (by linarith : ¬ qabs e.Radius ≤ 100),
      if_neg (by linarith : ¬ qabs e.Radius ≤ 130),
      if_neg (by linarith : ¬ qabs e.Radius ≤ 160),
      if_neg (by linarith : ¬ qabs e.Radius ≤ 200),
      if_neg (by linarith : ¬ qabs e.Radius ≤ 250),
      if_neg (by linarith : ¬ qabs e.Radius ≤ 300),
      if_neg (by linarith : ¬ qabs e.Radius ≤ 350),
      if_neg (by linarith : ¬ qabs e.Radius ≤ 430)]
    rcases le_or_lt (qabs e.Radius) 530 with h5 | h5
    · rw [if_pos h5]
      norm_num [MaxVp]
    · rw [if_neg (not_le.mpr h5)]
      rcases le_or_lt (qabs e.Radius) 670 with h6 | h6
      · rw [if_pos h6]
        norm_num [MaxVp]
      · rw [if_neg (not_le.mpr h6)]
        norm_num [MaxVp]
  refine ⟨h100, ?_, ?_⟩
  · rw [h100]
    rfl
  · unfold processRadius
    rw [ht]
    simp only [if_pos rfl, h100]
    rfl

/-- Witness for C3 at radius −500: the uncapped table speed is 110, the
stored Vp is 100, and the clothoid bounds use the bucket-100 entry 56
(`AMinSq = 500·56 = 28000`, `AMaxSq = 56000`). -/
theorem C3_witness :
    430 < qabs (inputElement 7 ElementType.Radius 40 (-500)).Radius
    ∧ processRadius (inputElement 7 ElementType.Radius 40 (-500))
        = some { inputElement 7 ElementType.Radius 40 (-500) with
                 Vp := 100, AMinSq := 28000, AMaxSq := 56000 } := by
  refine ⟨by decide, ?_⟩
  have h := (C3_capped_vp_keys_clothoid_lookup
    (inputElement 7 ElementType.Radius 40 (-500)) rfl (by decide)).2.2
  rw [h]
  norm_num [inputElement, qabs]

/-- Claim C7: `getNearestRadius` aborts fatally (none) exactly when both
directed scans miss (first conjunct); a single hit is returned as is
(second and third conjuncts); with two hits the strictly smaller step
distance wins and the next-direction (+1) hit wins ties, per the
`previousDistance < nextDistance` comparison (fourth conjunct). -/
theorem C7_nearest_radius_selection (es : List Element) (pos : ℤ) :
    (getNearestRadius es pos = none ↔
      (getDirectedNextRadius es pos (-1)).1 = none
        ∧ (getDirectedNextRadius es pos 1).1 = none)
    ∧ (∀ p, (getDirectedNextRadius es pos (-1)).1 = some p →
        (getDirectedNextRadius es pos 1).1 = none →
        getNearestRadius es pos = some p)
    ∧ (∀ n, (getDirectedNextRadius es pos (-1)).1 = none →
        (getDirectedNextRadius es pos 1).1 = some n →
        getNearestRadius es pos = some n)
    ∧ (∀ p n, (getDirectedNextRadius es pos (-1)).1 = some p →
        (getDirectedNextRadius es pos 1).1 = some n →
        getNearestRadius es pos = some (if (getDirectedNextRadius es pos (-1)).2
          < (getDirectedNextRadius es pos 1).2 then p else n)) := by
  refine ⟨?_, ?_, ?_, ?_⟩
  · unfold getNearestRadius
    cases hp : (getDirectedNextRadius es pos (-1)).1 with
    | none =>
      cases hn : (getDirectedNextRadius es pos 1).1 with
      | none => simp [hp, hn]
      | some n => simp [hp, hn]
    | some p =>
      cases hn : (getDirectedNextRadius es pos 1).1 with
      | none => simp [hp, hn]
      | some n =>
        simp only [hp, hn]
        split_ifs <;> simp
  · intro p hp hn
    unfold getNearestRadius
    simp [hp, hn]
  · intro n hp hn
    unfold getNearestRadius
    simp [hp, hn]
  · intro p n hp hn
    unfold getNearestRadius
    simp only [hp, hn]
    split_ifs <;> rfl

/-- Witness for C7 on `[Straight, Radius, Straight, Radius]` at position
2: both scans hit at step distance 1 and the tie goes to the next (+1)
Radius. -/
theorem C7_witness :
    getNearestRadius
      [inputElement 1 ElementType.Straight 5 0,
       { inputElement 2 ElementType.Radius 10 (-50) with Vp := 50 },
       inputElement 3 ElementType.Straight 5 0,
       { inputElement 4 ElementType.Radius 10 60 with Vp := 55 }] 2
      = some { inputElement 4 ElementType.Radius 10 60 with Vp := 55 } := by
  have h := (C7_nearest_radius_selection
    [inputElement 1 ElementType.Straight 5 0,
     { inputElement 2 ElementType.Radius 10 (-50) with Vp := 50 },
     inputElement 3 ElementType.Straight 5 0,
     { inputElement 4 ElementType.Radius 10 60 with Vp := 55 }] 2).2.2.2
    { inputElement 2 ElementType.Radius 10 (-50) with Vp := 50 }
    { inputElement 4 ElementType.Radius 10 60 with Vp := 55 }
    (by decide) (by decide)
  exact h.trans (by decide)

/-- Claim C8: a Straight element's minimum length.  When both flanking
Radius hits exist and their radii share a strict sign the 5-second rule
`Vp/3.6·5` applies (first conjunct); otherwise — opposite signs, a zero
radius on either side, or a missing flank — the 1-second rule `Vp/3.6·1`
stays (second and third conjuncts). -/
theorem C8_straight_min_length (es : List Element) (i : ℕ) (e : Element)
    (ht : e.type = ElementType.Straight) :
    (∀ p n, getPreviousRadius es i = some p → getNextRadius es i = some n →
      ((p.Radius < 0 ∧ n.Radius < 0) ∨ (p.Radius > 0 ∧ n.Radius > 0)) →
      minLengthAt es i e = some { e with MinLength := (e.Vp : ℚ) / 3.6 * 5 })
    ∧ (∀ p n, getPreviousRadius es i = some p → getNextRadius es i = some n →
      ¬ ((p.Radius < 0 ∧ n.Radius < 0) ∨ (p.Radius > 0 ∧ n.Radius > 0)) →
      minLengthAt es i e = some { e with MinLength := (e.Vp : ℚ) / 3.6 * 1 })
    ∧ ((getPreviousRadius es i = none ∨ getNextRadius es i = none) →
      minLengthAt es i e = some { e with MinLength := (e.Vp : ℚ) / 3.6 * 1 }) := by
  refine ⟨?_, ?_, ?_⟩
  · intro p n hp hn hsign
    unfold minLengthAt
    rw [ht]
    simp only [hp, hn]
    rcases hsign with ⟨h1, h2⟩ | ⟨h1, h2⟩
    · rw [if_pos ⟨h1, h2⟩]
      simp [drivingSecondLength]
    · have hneg : ¬ (p.Radius < 0 ∧ n.Radius < 0) := fun ⟨c1, _⟩ => absurd h1 (not_lt.mpr c1.le)
      rw [if_neg hneg, if_pos ⟨h1, h2⟩]
      simp [drivingSecondLength]
  · intro p n hp hn hsign
    unfold minLengthAt
    rw [ht]
    simp only [hp, hn]
    rw [if_neg (fun h => hsign (Or.inl h)), if_neg (fun h => hsign (Or.inr h))]
    simp [drivingSecondLength]
  · intro hmiss
    unfold minLengthAt
    rw [ht]
    rcases hmiss with h | h
    · rw [h]
      cases hn : getNextRadius es i <;> simp [drivingSecondLength]
    · rw [h]
      cases hp : getPreviousRadius es i <;> simp [drivingSecondLength]

/-- Witness for C8 at the spec's example: a Straight with Vp 60 between
Radius −200 and Radius −150 (same sign) gets the 5-second minimum
`60/3.6·5 = 250/3`; between Radius −200 and Radius 150 (opposite signs)
it keeps the 1-second minimum `50/3`. -/
theorem C8_witness :
    minLengthAt
      [inputElement 1 ElementType.Straight 5 0,
       { inputElement 2 ElementType.Radius 10 (-200) with Vp := 80 },
       { inputElement 3 ElementType.Straight 10 0 with Vp := 60 },
       { inputElement 4 ElementType.Radius 10 (-150) with Vp := 75 }] 2
      { inputElement 3 ElementType.Straight 10 0 with Vp := 60 }
      = some { inputElement 3 ElementType.Straight 10 0 with
               Vp := 60, MinLength := 250 / 3 }
    ∧ minLengthAt
      [inputElement 1 ElementType.Straight 5 0,
       { inputElement 2 ElementType.Radius 10 (-200) with Vp := 80 },
       { inputElement 3 ElementType.Straight 10 0 with Vp := 60 },
       { inputElement 4 ElementType.Radius 10 150 with Vp := 75 }] 2
      { inputElement 3 ElementType.Straight 10 0 with Vp := 60 }
      = some { inputElement 3 ElementType.Straight 10 0 with
               Vp := 60, MinLength := 50 / 3 } := by
  constructor
  · have h := (C8_straight_min_length
      [inputElement 1 ElementType.Straight 5 0,
       { inputElement 2 ElementType.Radius 10 (-200) with Vp := 80 },
       { inputElement 3 ElementType.Straight 10 0 with Vp := 60 },
       { inputElement 4 ElementType.Radius 10 (-150) with Vp := 75 }] 2
      { inputElement 3 ElementType.Straight 10 0 with Vp := 60 } rfl).1
      { inputElement 2 ElementType.Radius 10 (-200) with Vp := 80 }
      { inputElement 4 ElementType.Radius 10 (-150) with Vp := 75 }
      (by decide) (by decide) (Or.inl (by decide))
    refine h.trans ?_
    norm_num [inputElement]
  · have h := (C8_straight_min_length
      [inputElement 1 ElementType.Straight 5 0,
       { inputElement 2 ElementType.Radius 10 (-200) with Vp := 80 },
       { inputElement 3 ElementType.Straight 10 0 with Vp := 60 },
       { inputElement 4 ElementType.Radius 10 150 with Vp := 75 }] 2
      { inputElement 3 ElementType.Straight 10 0 with Vp := 60 } rfl).2.1
      { inputElement 2 ElementType.Radius 10 (-200) with Vp := 80 }
      { inputElement 4 ElementType.Radius 10 150 with Vp := 75 }
      (by decide) (by decide) (by decide)
    refine h.trans ?_
    norm_num [inputElement]

/-! ### Helper lemmas: evaluating the sqrt-encoded comparisons and
`checkLengths` -/

lemma ltSqrt_false (x s : ℚ) (h1 : 0 ≤ x) (h2 : s ≤ x ^ 2) : ltSqrt x s = false := by
  unfold ltSqrt
  rw [decide_eq_false (not_lt.mpr h1), decide_eq_false (not_lt.mpr h2)]
  rfl

lemma ltSqrt_true (x s : ℚ) (h : x ^ 2 < s) : ltSqrt x s = true := by
  unfold ltSqrt
  rw [decide_eq_true h]
  simp

lemma gtSqrt_true (x s : ℚ) (h1 : 0 ≤ x) (h2 : s < x ^ 2) : gtSqrt x s = true := by
  unfold gtSqrt
  rw [decide_eq_true h1, decide_eq_true h2]
  rfl

lemma gtSqrt_false (x s : ℚ) (h : x ^ 2 ≤ s) : gtSqrt x s = false := by
  unfold gtSqrt
  rw [decide_eq_false (not_lt.mpr h)]
  simp

lemma aboveMaxLength_set_errors (c : Element) (x : ℕ) :
    aboveMaxLength { c with Errors := x } = aboveMaxLength c := rfl

lemma checkLengths_no_flags (c : Element) (h1 : belowMinLength c = false)
    (h2 : aboveMaxLength c = false) : checkLengths c = c := by
  simp [checkLengths, h1, h2]

lemma checkLengths_min_flag (c : Element) (h : belowMinLength c = true) :
    (checkLengths c).Errors &&& EMinLength ≠ 0 := by
  have h2 : EMinLength = 2 ^ 1 := by norm_num [EMinLength]
  simp only [checkLengths, h, if_true]
  cases hmax : aboveMaxLength { c with Errors := c.Errors ||| EMinLength } with
  | false =>
    simp only [hmax, Bool.false_eq_true, if_false]
    rw [h2, and_two_pow_ne_zero_iff]
    exact testBit_or_self c.Errors 1
  | true =>
    simp only [hmax, if_true]
    rw [h2, and_two_pow_ne_zero_iff]
    exact testBit_or_of_testBit _ _ _ (testBit_or_self c.Errors 1)

lemma checkLengths_max_flag (c : Element) (h : aboveMaxLength c = true) :
    (checkLengths c).Errors &&& EMaxLength ≠ 0 := by
  have h4 : EMaxLength = 2 ^ 2 := by norm_num [EMaxLength]
  cases hmin : belowMinLength c with
  | false =>
    simp only [checkLengths, hmin, Bool.false_eq_true, if_false, h]
    simp only [if_true]
    rw [h4, and_two_pow_ne_zero_iff]
    exact testBit_or_self c.Errors 2
  | true =>
    simp only [checkLengths, hmin, if_true,
      aboveMaxLength_set_errors, h]
    rw [h4, and_two_pow_ne_zero_iff]
    exact testBit_or_self _ 2

/-- Claim C4: a Clothoid element inherits the nearest Radius element's Vp
(first conjunct) and copies that radius's `AMin`/`AMax` into its
`MinLength`/`MaxLength` (second conjunct; squares here).  On the updated
element the two length checks are exactly the comparisons against
`AMin`/`AMax` (third and fourth conjuncts, via the sqrt encoding), and a
length between the bounds gets neither flag, one below `AMin` gets
`EMinLength`, one above `AMax` gets `EMaxLength` (last three
conjuncts). -/
theorem C4_clothoid_bounds (es : List Element) (i : ℕ) (e r : Element)
    (ht : e.type = ElementType.Clothoid)
    (hr : getNearestRadius es i = some r) :
    clothoidVpAt es i e = some { e with Vp := r.Vp }
    ∧ minLengthAt es i e
        = some { e with MinLengthSq := r.AMinSq, MaxLengthSq := r.AMaxSq }
    ∧ belowMinLength { e with MinLengthSq := r.AMinSq, MaxLengthSq := r.AMaxSq }
        = ltSqrt e.Length r.AMinSq
    ∧ aboveMaxLength { e with MinLengthSq := r.AMinSq, MaxLengthSq := r.AMaxSq }
        = (decide (r.AMaxSq ≠ 0) && gtSqrt e.Length r.AMaxSq)
    ∧ (ltSqrt e.Length r.AMinSq = false →
        (decide (r.AMaxSq ≠ 0) && gtSqrt e.Length r.AMaxSq) = false →
        checkLengths { e with MinLengthSq := r.AMinSq, MaxLengthSq := r.AMaxSq }
          = { e with MinLengthSq := r.AMinSq, MaxLengthSq := r.AMaxSq })
    ∧ (ltSqrt e.Length r.AMinSq = true →
        (checkLengths { e with
          MinLengthSq := r.AMinSq,
          MaxLengthSq := r.AMaxSq }).Errors &&& EMinLength ≠ 0)
    ∧ (r.AMaxSq ≠ 0 → gtSqrt e.Length r.AMaxSq = true →
        (checkLengths { e with
          MinLengthSq := r.AMinSq,
          MaxLengthSq := r.AMaxSq }).Errors &&& EMaxLength ≠ 0) := by
  have hbelow : belowMinLength
      { e with MinLengthSq := r.AMinSq, MaxLengthSq := r.AMaxSq }
      = ltSqrt e.Length r.AMinSq := by
    unfold belowMinLength
    rw [show ({ e with MinLengthSq := r.AMinSq, MaxLengthSq := r.AMaxSq } : Element).type
      = ElementType.Clothoid from ht]
  have habove : aboveMaxLength
      { e with MinLengthSq := r.AMinSq, MaxLengthSq := r.AMaxSq }
      = (decide (r.AMaxSq ≠ 0) && gtSqrt e.Length r.AMaxSq) := rfl
  refine ⟨?_, ?_, hbelow, habove, ?_, ?_, ?_⟩
  · unfold clothoidVpAt
    rw [ht]
    simp [hr]
  · unfold minLengthAt
    rw [ht]
    simp [hr]
  · intro h1 h2
    exact checkLengths_no_flags _ (hbelow.trans h1) (habove.trans h2)
  · intro h1
    exact checkLengths_min_flag _ (hbelow.trans h1)
  · intro hne h1
    refine checkLengths_max_flag _ (habove.trans ?_)
    rw [decide_eq_true hne, h1]
    rfl

/-- The Radius −300 neighbour of the spec's clothoid example, as the
radius stage leaves it: Vp 90, `AMin = √15000 ≈ 122.47`,
`AMax = √30000 ≈ 173.21` (squares stored). -/
def radMinus300 : Element :=
  { inputElement 2 ElementType.Radius 20 (-300) with
    Vp := 90, AMinSq := 15000, AMaxSq := 30000 }

/-- A clothoid input element of the given length. -/
def cloth (len : ℚ) : Element := inputElement 9 ElementType.Clothoid len 0

/-- Witness for C4 at the spec's example: next to Radius −300 (Vp 90,
bounds √15000 and √30000) a Clothoid inherits Vp 90 and the bounds;
length 150 gets neither flag, length 100 gets `EMinLength`, length 200
gets `EMaxLength`. -/
theorem C4_witness :
    clothoidVpAt [cloth 150, radMinus300] 0 (cloth 150)
      = some { cloth 150 with Vp := 90 }
    ∧ minLengthAt [cloth 150, radMinus300] 0 (cloth 150)
      = some { cloth 150 with MinLengthSq := 15000, MaxLengthSq := 30000 }
    ∧ checkLengths { cloth 150 with MinLengthSq := 15000, MaxLengthSq := 30000 }
      = { cloth 150 with MinLengthSq := 15000, MaxLengthSq := 30000 }
    ∧ (checkLengths { cloth 100 with
        MinLengthSq := 15000, MaxLengthSq := 30000 }).Errors &&& EMinLength ≠ 0
    ∧ (checkLengths { cloth 200 with
        MinLengthSq := 15000, MaxLengthSq := 30000 }).Errors &&& EMaxLength ≠ 0
    ∧ determineRadiusVp (-300 : ℚ) = 90
    ∧ determineMinClothoidLength 90 = some 50 := by
  have h150 := C4_clothoid_bounds [cloth 150, radMinus300] 0 (cloth 150)
    radMinus300 rfl (by decide)
  have h100 := C4_clothoid_bounds [cloth 100, radMinus300] 0 (cloth 100)
    radMinus300 rfl (by decide)
  have h200 := C4_clothoid_bounds [cloth 200, radMinus300] 0 (cloth 200)
    radMinus300 rfl (by decide)
  refine ⟨h150.1.trans (by decide), h150.2.1.trans (by decide), ?_, ?_, ?_,
    by decide, rfl⟩
  · have h := h150.2.2.2.2.1
      (ltSqrt_false 150 15000 (by norm_num) (by norm_num))
      (by
        rw [show radMinus300.AMaxSq = 30000 from rfl,
          show (cloth 150).Length = 150 from rfl,
          gtSqrt_false 150 30000 (by norm_num)]
        rfl)
    exact h.trans (by decide)
  · exact h100.2.2.2.2.2.1 (ltSqrt_true 100 15000 (by norm_num))
  · exact h200.2.2.2.2.2.2 (by norm_num [radMinus300, inputElement])
      (gtSqrt_true 200 30000 (by norm_num) (by norm_num))

/-! ### Helper observers and lemmas for the Vp-difference pass -/

/-- Whether the element at index `i` carries the `EVpDiff` flag. -/
def flaggedAt (es : List Element) (i : ℕ) : Bool :=
  ((es[i]?).map (fun e => decide (e.Errors &&& EVpDiff ≠ 0))).getD false

/-- Whether the adjacent pair `(i, i+1)` exists and violates the
Vp-difference rule `vpDiffInvalid`. -/
def pairInvalid (es : List Element) (i : ℕ) : Bool :=
  ((es[i]?).bind (fun a => (es[i + 1]?).map (fun b => vpDiffInvalid a b))).getD false

lemma flaggedAt_cons_succ (x : Element) (xs : List Element) (j : ℕ) :
    flaggedAt (x :: xs) (j + 1) = flaggedAt xs j := by
  simp [flaggedAt]

lemma pairInvalid_cons_succ (x : Element) (xs : List Element) (j : ℕ) :
    pairInvalid (x :: xs) (j + 1) = pairInvalid xs j := by
  simp [pairInvalid]

lemma vpDiffInvalid_set_errors_left (a b : Element) (x : ℕ) :
    vpDiffInvalid { a with Errors := x } b = vpDiffInvalid a b := rfl

lemma pairInvalid_set_head_errors (n : Element) (x : ℕ) (xs : List Element)
    (k : ℕ) :
    pairInvalid ({ n with Errors := x } :: xs) k = pairInvalid (n :: xs) k := by
  cases k with
  | zero =>
    cases xs with
    | nil => rfl
    | cons b xs2 => simp [pairInvalid, vpDiffInvalid_set_errors_left]
  | succ j => rw [pairInvalid_cons_succ, pairInvalid_cons_succ]

lemma or_EVpDiff_and_ne (a : ℕ) : (a ||| EVpDiff) &&& EVpDiff ≠ 0 := by
  rw [show EVpDiff = 2 ^ 0 by norm_num [EVpDiff], and_two_pow_ne_zero_iff]
  exact testBit_or_self a 0

/-- Characterization of the Vp-difference pair loop: after the pass the
element at `i` carries `EVpDiff` iff it carried it already, or its left
pair violates the rule, or its right pair does. -/
lemma checkVpDiffsAux_flaggedAt :
    ∀ (rest : List Element) (e : Element) (i : ℕ),
    flaggedAt (checkVpDiffsAux e rest) i =
      (flaggedAt (e :: rest) i
        || (decide (0 < i) && pairInvalid (e :: rest) (i - 1))
        || pairInvalid (e :: rest) i) := by
  intro rest
  induction rest with
  | nil =>
    intro e i
    match i with
    | 0 => simp [checkVpDiffsAux, flaggedAt, pairInvalid]
    | 1 => simp [checkVpDiffsAux, flaggedAt, pairInvalid]
    | j + 2 => simp [checkVpDiffsAux, flaggedAt, pairInvalid]
  | cons n rest2 ih =>
    intro e i
    cases hinv : vpDiffInvalid e n with
    | true =>
      have hstep : checkVpDiffsAux e (n :: rest2)
          = { e with Errors := e.Errors ||| EVpDiff }
            :: checkVpDiffsAux { n with Errors := n.Errors ||| EVpDiff } rest2 := by
        simp [checkVpDiffsAux, hinv]
      rw [hstep]
      match i with
      | 0 =>
        simp [flaggedAt, pairInvalid, hinv]
        exact or_EVpDiff_and_ne e.Errors
      | j + 1 =>
        rw [flaggedAt_cons_succ, ih]
        rw [pairInvalid_set_head_errors, pairInvalid_set_head_errors]
        match j with
        | 0 =>
          have hl : flaggedAt ({ n with Errors := n.Errors ||| EVpDiff } :: rest2) 0
              = true := by
            simp [flaggedAt]
            exact or_EVpDiff_and_ne n.Errors
          rw [hl]
          have hr : pairInvalid (e :: n :: rest2) 0 = true := by
            simp [pairInvalid, hinv]
          rw [show (1 : ℕ) - 1 = 0 from rfl, hr]
          simp
        | k + 1 =>
          simp only [flaggedAt_cons_succ, Nat.add_sub_cancel, pairInvalid_cons_succ]
          simp
    | false =>
      have hstep : checkVpDiffsAux e (n :: rest2) = e :: checkVpDiffsAux n rest2 := by
        simp [checkVpDiffsAux, hinv]
      rw [hstep]
      match i with
      | 0 =>
        simp [flaggedAt, pairInvalid, hinv]
      | j + 1 =>
        rw [flaggedAt_cons_succ, ih]
        match j with
        | 0 =>
          have hr : pairInvalid (e :: n :: rest2) 0 = false := by
            simp [pairInvalid, hinv]
          rw [show (1 : ℕ) - 1 = 0 from rfl, hr]
          rw [show pairInvalid (e :: n :: rest2) 1 = pairInvalid (n :: rest2) 0
            from pairInvalid_cons_succ e (n :: rest2) 0]
          rw [show flaggedAt (e :: n :: rest2) 1 = flaggedAt (n :: rest2) 0
            from flaggedAt_cons_succ e (n :: rest2) 0]
          simp
        | k + 1 =>
          simp only [flaggedAt_cons_succ, Nat.add_sub_cancel, pairInvalid_cons_succ]
          simp

/-- An element whose only relevant datum is its Vp (for the
Vp-difference examples). -/
def vpOnly (v : ℤ) : Element :=
  { inputElement 0 ElementType.Straight 1 0 with Vp := v }

/-- Claim C5: after the Vp-difference pass an element carries `EVpDiff`
iff it already carried it or one of its adjacent pairs violates the rule
(first conjunct), where a pair violates the rule iff `diff = |Vp_i −
Vp_{i+1}|` is `≥ 20` when either Vp equals 100, and `> 20` otherwise
(second conjunct) — so a violating pair flags BOTH its elements.  The
spec's examples: `[100, 79]` and `[90, 69]` flag both elements,
`[100, 81]` and `[90, 70]` flag neither (remaining conjuncts). -/
theorem C5_vp_difference_pairs (es : List Element) (i : ℕ) :
    (flaggedAt (checkVpDiffs es) i =
      (flaggedAt es i || (decide (0 < i) && pairInvalid es (i - 1))
        || pairInvalid es i))
    ∧ (∀ a b : Element, vpDiffInvalid a b =
        (if a.Vp = 100 ∨ b.Vp = 100 then decide (20 ≤ |a.Vp - b.Vp|)
         else decide (20 < |a.Vp - b.Vp|)))
    ∧ (checkVpDiffs [vpOnly 100, vpOnly 79]).map Element.Errors = [EVpDiff, EVpDiff]
    ∧ (checkVpDiffs [vpOnly 100, vpOnly 81]).map Element.Errors = [0, 0]
    ∧ (checkVpDiffs [vpOnly 90, vpOnly 69]).map Element.Errors = [EVpDiff, EVpDiff]
    ∧ (checkVpDiffs [vpOnly 90, vpOnly 70]).map Element.Errors = [0, 0] := by
  refine ⟨?_, fun a b => rfl, by decide, by decide, by decide, by decide⟩
  cases es with
  | nil => simp [checkVpDiffs, flaggedAt, pairInvalid]
  | cons e rest => exact checkVpDiffsAux_flaggedAt rest e i

lemma foldl_add_eq (f : Element → ℚ) :
    ∀ (es : List Element) (a : ℚ),
      es.foldl (fun acc e => acc + f e) a = a + (es.map f).sum
  | [], a => by simp
  | e :: rest, a => by
    simp only [List.foldl_cons, List.map_cons, List.sum_cons]
    rw [foldl_add_eq f rest (a + f e)]
    ring

/-- Claim C9, amended: the reported mean Vp is the length-weighted
average `Σ(length·Vp) / Σ(length)` whenever the total length is nonzero
(the zero-total-length half of the claim is refuted by
`C9_zero_length_counterexample`). -/
theorem C9_weighted_mean (es : List Element)
    (h : (es.map Element.Length).sum ≠ 0) :
    meanVp es
      = some ((es.map (fun e => e.Length * (e.Vp : ℚ))).sum
          / (es.map Element.Length).sum) := by
  have ht : totalLength es = (es.map Element.Length).sum := by
    simpa using foldl_add_eq Element.Length es 0
  have hv : vpProduct es = (es.map (fun e => e.Length * (e.Vp : ℚ))).sum := by
    simpa using foldl_add_eq (fun e => e.Length * (e.Vp : ℚ)) es 0
  unfold meanVp
  rw [ht, hv]
  exact if_neg h

/-- Witness for C9 at the spec's example: lengths [100, 200] with Vp
[50, 80] give mean `(100·50 + 200·80)/300 = 70`. -/
theorem C9_witness :
    meanVp [ { inputElement 1 ElementType.Straight 100 0 with Vp := 50 },
             { inputElement 2 ElementType.Straight 200 0 with Vp := 80 } ]
      = some 70 := by
  have h := C9_weighted_mean
    [ { inputElement 1 ElementType.Straight 100 0 with Vp := 50 },
      { inputElement 2 ElementType.Straight 200 0 with Vp := 80 } ]
    (by norm_num [inputElement])
  rw [h]
  norm_num [inputElement]

/-- Claim C9's zero-length half is false on the code: `main` divides
`vpProduct / totalLength` unconditionally, so at an alignment of total
length 0 the float division produces a non-finite value (NaN) that is
printed as is (`none` in the embedding) — there is no detected
"undefined"-style report.  Concretely, a single element of length 0. -/
theorem C9_zero_length_counterexample :
    totalLength [inputElement 1 ElementType.Straight 0 0] = 0
    ∧ meanVp [inputElement 1 ElementType.Straight 0 0] = none := by
  constructor
  · simp [totalLength, inputElement]
  · simp [meanVp, totalLength, inputElement]

/-- A Clothoid element as it reaches the length check with only an
above-max-length violation: length 200 against bounds `√15000 ≈ 122.47`
and `√30000 ≈ 173.21`. -/
def clothAboveMax : Element :=
  { inputElement 5 ElementType.Clothoid 200 0 with
    Vp := 90, MinLengthSq := 15000, MaxLengthSq := 30000 }

/-- Claim C10 is violated by the code: `stringifyErrors` has branches
only for `EVpDiff` ("VpDiff") and `EMinLength` ("MinLength") and none
for `EMaxLength`, so an element whose only violation is AboveMaxLength
ends with `Errors = EMaxLength ≠ 0` (first two conjuncts — it is even
selected into the error-only output) but an EMPTY Errors cell instead of
that flag's name (third conjunct); the two handled flags are joined as
claimed (fourth conjunct). -/
theorem C10_maxlength_flag_unreported :
    (checkLengths clothAboveMax).Errors = EMaxLength
    ∧ EMaxLength ≠ 0
    ∧ stringifyErrors (checkLengths clothAboveMax).Errors = ""
    ∧ stringifyErrors (EVpDiff ||| EMinLength) = "VpDiff, MinLength" := by
  have hbelow : belowMinLength clothAboveMax = false := by
    have h := ltSqrt_false 200 15000 (by norm_num) (by norm_num)
    simpa [belowMinLength, clothAboveMax, inputElement] using h
  have habove : aboveMaxLength clothAboveMax = true := by
    have h := gtSqrt_true 200 30000 (by norm_num) (by norm_num)
    simp [aboveMaxLength, clothAboveMax, inputElement, h]
  have herr : (checkLengths clothAboveMax).Errors = EMaxLength := by
    simp only [checkLengths, hbelow, Bool.false_eq_true, if_false, habove, if_true]
    simp [clothAboveMax, inputElement, EMaxLength]
  refine ⟨herr, by norm_num [EMaxLength], ?_, by decide⟩
  rw [herr]
  decide

end Trail
